import Mathlib

/-!
# Verification of the CSV missing-value remediation pipeline

Shallow embedding of the pipeline implemented in `csv_log_processor.py`
(duplicated near-verbatim in `logcsvfile.py`): the `process_csv` function
loads a CSV into a tabular dataset, counts the missing cells, logs a
WARNING when any are missing, replaces every missing cell with the string
`"UNKNOWN"`, and logs the elapsed time; every fault raised inside its
`try` block is caught and logged once at ERROR level.

Modelling choices, each reflecting the Python source:
* A `Dataset` is a header (list of column names) plus a list of rows; a
  cell is `Option String` (`none` is pandas `NaN`, i.e. an absent cell).
* `countMissing` mirrors `df.isnull().sum().sum()`: a per-column count of
  null cells, summed over the columns.
* `fillMissing` mirrors `df.fillna(sentinel)`: every `none` cell becomes
  `some sentinel`, every present cell is untouched.
* `reportIfMissing` mirrors the `if total_missing > 0: logging.warning(...)`
  step.
* `process_csv` mirrors the orchestrating function.  The fallible step
  inside its `try` block is the `pd.read_csv` call; the embedding takes
  its result as an `Except` value (the filesystem is outside the
  program), and the wall-clock duration as a parameter.  Exception-based
  control flow is rendered as the discriminated `ProcessingOutcome`
  result, per the spec's design notes: normal completion is `success`
  with the cleaned dataset, elapsed time and missing count in scope at
  the end of the `try` block, and a caught exception is `failure` with
  the logged description.  The Python `%.2f` formatting of the elapsed
  float is abstracted to the numeric argument rendered with `toString`.
-/

/-- A dataset cell: `some v` is a present scalar, `none` an absent cell
(pandas `NaN`). -/
abbrev Cell (α : Type) := Option α

/-- A tabular dataset as pandas holds it: column names plus rows of cells. -/
structure Dataset (α : Type) where
  cols : List String
  rows : List (List (Cell α))
  deriving Repr, DecidableEq

/-- The dataset is rectangular: every row has one cell per column.
This is the Dataset invariant of the spec's data model. -/
def Dataset.rect (d : Dataset α) : Prop :=
  ∀ r ∈ d.rows, r.length = d.cols.length

instance (d : Dataset α) : Decidable d.rect := by
  unfold Dataset.rect; infer_instance

/-- Whether row `r` has an absent cell at column index `j` (out-of-range
indices count as not absent). -/
def isAbsentAt (r : List (Cell α)) (j : Nat) : Bool :=
  match r.get? j with
  | some cell => cell.isNone
  | none => false

/-- `df.isnull().sum().sum()`: for each column, the number of rows whose
cell in that column is null; then the sum over all columns. -/
def countMissing (d : Dataset α) : Nat :=
  ((List.range d.cols.length).map (fun j => d.rows.countP (fun r => isAbsentAt r j))).sum

/-- The spec's wording of the missing count ("the number of cells, across
all records and columns, whose value is absent"): a row-by-row count of
absent cells, summed over the records.  Stated from the spec, to be
compared with `countMissing`, which is stated from the source. -/
def totalAbsentCells (d : Dataset α) : Nat :=
  (d.rows.map (fun r => r.countP Option.isNone)).sum

/-- `df.fillna(sentinel)`: every absent cell becomes `sentinel`, every
present cell is kept. -/
def fillMissing (d : Dataset α) (sentinel : α) : Dataset α :=
  { d with rows := d.rows.map (fun r => r.map (fun c => some (c.getD sentinel))) }

/-- The cell of `d` at row `i`, column `j`, when both are in range. -/
def cellAt (d : Dataset α) (i j : Nat) : Option (Cell α) :=
  (d.rows.get? i).bind (fun r => r.get? j)

/-- The three levels the pipeline logs at. -/
inductive Level where
  | info
  | warning
  | error
  deriving Repr, DecidableEq

/-- One emitted log line.  Timestamps are implicit in the emission order
(position in the emitted list). -/
structure LogEvent where
  level : Level
  msg : String
  deriving Repr, DecidableEq

/-- The discriminated result of a pipeline run (the spec's rendering of
`process_csv` either reaching the end of its `try` block or catching an
exception). -/
inductive ProcessingOutcome where
  | success (cleaned : Dataset String) (elapsed : Nat) (missingCount : Nat)
  | failure (errorDescription : String)
  deriving Repr, DecidableEq

/-- The `if total_missing > 0: logging.warning("File '%s' contains %d
missing values", file_path, total_missing)` step of `process_csv`. -/
def reportIfMissing (count : Nat) (path : String) : List LogEvent :=
  if count > 0 then
    [⟨Level.warning, "File '" ++ path ++ "' contains " ++ toString count ++ " missing values"⟩]
  else
    []

/-- `process_csv` of `csv_log_processor.py`.  `loadRes` is the outcome of
the `pd.read_csv(file_path)` call (`Except.error` when it raises),
`elapsed` the measured duration.  Returns the emitted log lines in order
together with the run's outcome. -/
def process_csv (path : String) (loadRes : Except String (Dataset String))
    (elapsed : Nat) : List LogEvent × ProcessingOutcome :=
  let startLog : LogEvent := ⟨Level.info, "Starting processing for file: " ++ path⟩
  match loadRes with
  | Except.error e =>
      ([startLog, ⟨Level.error, "Failed to process file '" ++ path ++ "': " ++ e⟩],
       ProcessingOutcome.failure ("Failed to process file '" ++ path ++ "': " ++ e))
  | Except.ok df =>
      let totalMissing := countMissing df
      let warnLogs := reportIfMissing totalMissing path
      let cleaned := fillMissing df "UNKNOWN"
      (startLog :: (warnLogs ++
         [⟨Level.info, "Processing completed in " ++ toString elapsed ++ " seconds"⟩]),
       ProcessingOutcome.success cleaned elapsed totalMissing)

/-- The named error kinds of the spec's loader. -/
inductive LoadError where
  | sourceNotFound
  | malformedSource
  deriving Repr, DecidableEq

/-- Splits a character list at every occurrence of `sep`; always returns
at least one (possibly empty) field. -/
def splitOnChar (sep : Char) : List Char → List (List Char)
  | [] => [[]]
  | c :: rest =>
    match splitOnChar sep rest with
    | [] => [[]]
    | field :: fields =>
      if c = sep then [] :: field :: fields else (c :: field) :: fields

/-- Modelled from the spec: the loading step of the pipeline is the
external library call `pd.read_csv`, whose implementation is not part of
this repository.  This definition follows the spec's `load` contract:
the input is the file's text when the path resolves to a readable file
(`none` otherwise, giving `SourceNotFoundError`); the first line is a
header naming the columns; every subsequent line is split on the comma
delimiter into a record; an empty field is an absent cell; a row whose
column count is inconsistent with the header's gives
`MalformedSourceError`. -/
def load (fileContents : Option String) : Except LoadError (Dataset String) :=
  match fileContents with
  | none => Except.error LoadError.sourceNotFound
  | some text =>
    match (splitOnChar '\n' text.data).map (fun line => (splitOnChar ',' line).map String.mk) with
    | [] => Except.error LoadError.malformedSource
    | header :: dataRows =>
      if dataRows.all (fun r => r.length == header.length) then
        Except.ok ⟨header,
          dataRows.map (fun r => r.map (fun f => if f = "" then none else some f))⟩
      else
        Except.error LoadError.malformedSource

/-! ## Helper lemmas -/

theorem sum_map_add_nat (l : List β) (f g : β → Nat) :
    (l.map (fun x => f x + g x)).sum = (l.map f).sum + (l.map g).sum := by
  induction l with
  | nil => simp
  | cons a l ih => simp [ih]; omega

theorem sum_map_zero_nat (l : List β) : (l.map (fun _ => (0 : Nat))).sum = 0 := by
  induction l with
  | nil => rfl
  | cons a l ih => simp [ih]

theorem isAbsentAt_cons_zero (c : Cell α) (r : List (Cell α)) :
    isAbsentAt (c :: r) 0 = c.isNone := rfl

theorem isAbsentAt_cons_succ (c : Cell α) (r : List (Cell α)) (j : Nat) :
    isAbsentAt (c :: r) (j + 1) = isAbsentAt r j := rfl

/-- Counting the absent cells of one row column-index by column-index
agrees with counting its `none` entries directly. -/
theorem sum_range_isAbsent (r : List (Cell α)) :
    ((List.range r.length).map (fun j => if isAbsentAt r j then 1 else 0)).sum
      = r.countP Option.isNone := by
  induction r with
  | nil => rfl
  | cons c r ih =>
    rw [List.length_cons, List.range_succ_eq_map, List.map_cons, List.map_map]
    have hcomp : ((fun j => if isAbsentAt (c :: r) j then (1 : Nat) else 0) ∘ Nat.succ)
        = (fun j => if isAbsentAt r j then 1 else 0) := by
      funext j; rfl
    rw [hcomp, List.sum_cons, ih, isAbsentAt_cons_zero, List.countP_cons]
    cases c <;> simp [Option.isNone]
    omega

/-- Exchanging the two summation orders: the column-major count of absent
cells used by the source equals the row-major count of the spec, for
rectangular row lists. -/
theorem colMajor_eq_rowMajor (C : Nat) (rows : List (List (Cell α)))
    (h : ∀ r ∈ rows, r.length = C) :
    ((List.range C).map (fun j => rows.countP (fun r => isAbsentAt r j))).sum
      = (rows.map (fun r => r.countP Option.isNone)).sum := by
  induction rows with
  | nil => simp [List.countP_nil, sum_map_zero_nat]
  | cons r rs ih =>
    have hr : r.length = C := h r (List.mem_cons_self _ _)
    have hrs : ∀ x ∈ rs, x.length = C := fun x hx => h x (List.mem_cons_of_mem _ hx)
    have hstep : (fun j => (r :: rs).countP (fun x => isAbsentAt x j))
        = (fun j => rs.countP (fun x => isAbsentAt x j) + if isAbsentAt r j then 1 else 0) := by
      funext j; exact List.countP_cons _ _ _
    rw [hstep, sum_map_add_nat, ih hrs, ← hr, sum_range_isAbsent, List.map_cons, List.sum_cons]
    omega

/-! ## Claim theorems -/

/-- Claim C3: `countMissing` (the embedding of `df.isnull().sum().sum()`)
returns exactly the number of absent cells across all records and
columns, and returns 0 on a dataset with zero records.  The hypothesis is
the spec's Dataset invariant: every record has one cell per column. -/
theorem countMissing_correct (d : Dataset α) (h : d.rect) :
    countMissing d = totalAbsentCells d ∧ (d.rows = [] → countMissing d = 0) := by
  constructor
  · exact colMajor_eq_rowMajor d.cols.length d.rows h
  · intro h0
    simp [countMissing, h0, List.countP_nil, sum_map_zero_nat]

/-- Witness for C3: a concrete 2-by-2 dataset with three absent cells. -/
theorem countMissing_correct_witness :
    Dataset.rect (⟨["A", "B"], [[some "x", none], [none, none]]⟩ : Dataset String) ∧
    countMissing (⟨["A", "B"], [[some "x", none], [none, none]]⟩ : Dataset String)
      = totalAbsentCells (⟨["A", "B"], [[some "x", none], [none, none]]⟩ : Dataset String) ∧
    countMissing (⟨["A", "B"], [[some "x", none], [none, none]]⟩ : Dataset String) = 3 :=
  ⟨by decide,
   (countMissing_correct ⟨["A", "B"], [[some "x", none], [none, none]]⟩ (by decide)).1,
   by decide⟩

/-- The cell-level description of `fillMissing`: each cell of the result
is the original cell with `none` replaced by the sentinel. -/
theorem cellAt_fillMissing (d : Dataset α) (s : α) (i j : Nat) :
    cellAt (fillMissing d s) i j = (cellAt d i j).map (fun c => some (c.getD s)) := by
  unfold cellAt fillMissing
  simp only [List.get?_map]
  cases d.rows.get? i with
  | none => rfl
  | some r => simp [List.get?_map]

/-- Claim C4: `fillMissing` (the embedding of `df.fillna`) leaves no
absent cell in its output, sends every absent cell to the sentinel, and
keeps every present cell exactly as it was. -/
theorem fillMissing_fills_and_preserves (d : Dataset α) (s : α) :
    (∀ r ∈ (fillMissing d s).rows, ∀ c ∈ r, c.isSome) ∧
    (∀ i j, cellAt d i j = some none → cellAt (fillMissing d s) i j = some (some s)) ∧
    (∀ i j v, cellAt d i j = some (some v) → cellAt (fillMissing d s) i j = some (some v)) := by
  refine ⟨?_, ?_, ?_⟩
  · intro r hr c hc
    simp only [fillMissing, List.mem_map] at hr
    obtain ⟨r0, _, rfl⟩ := hr
    simp only [List.mem_map] at hc
    obtain ⟨c0, _, rfl⟩ := hc
    rfl
  · intro i j hij
    rw [cellAt_fillMissing, hij]; rfl
  · intro i j v hij
    rw [cellAt_fillMissing, hij]; rfl

/-- Witness for C4: in a one-column, one-row dataset holding an absent
cell next to a present one, the fill replaces the absent cell with the
sentinel and keeps the present cell. -/
theorem fillMissing_fills_and_preserves_witness :
    cellAt (⟨["A", "B"], [[none, some "x"]]⟩ : Dataset String) 0 0 = some none ∧
    cellAt (fillMissing (⟨["A", "B"], [[none, some "x"]]⟩ : Dataset String) "UNKNOWN") 0 0
      = some (some "UNKNOWN") ∧
    cellAt (⟨["A", "B"], [[none, some "x"]]⟩ : Dataset String) 0 1 = some (some "x") ∧
    cellAt (fillMissing (⟨["A", "B"], [[none, some "x"]]⟩ : Dataset String) "UNKNOWN") 0 1
      = some (some "x") :=
  ⟨rfl,
   (fillMissing_fills_and_preserves ⟨["A", "B"], [[none, some "x"]]⟩ "UNKNOWN").2.1 0 0 rfl,
   rfl,
   (fillMissing_fills_and_preserves ⟨["A", "B"], [[none, some "x"]]⟩ "UNKNOWN").2.2 0 1 "x" rfl⟩

/-- Claim C8: `fillMissing` is idempotent — filling an already filled
dataset changes nothing, because no absent cell remains. -/
theorem fillMissing_idempotent (d : Dataset α) (s : α) :
    fillMissing (fillMissing d s) s = fillMissing d s := by
  simp [fillMissing, List.map_map, Function.comp_def]

/-- Claim C9: `fillMissing` preserves the dataset's shape exactly: the
column list (hence the column set and column order), the number of rows,
and each row's length are unchanged, and the record order is preserved —
the row at every index `i` of the output is precisely the cellwise fill
of the input's row at the same index `i`, so no reordering of records
can occur. -/
theorem fillMissing_shape (d : Dataset α) (s : α) :
    (fillMissing d s).cols = d.cols ∧
    (fillMissing d s).rows.length = d.rows.length ∧
    (∀ i, (fillMissing d s).rows.get? i
        = (d.rows.get? i).map (fun r => r.map (fun c => some (c.getD s)))) ∧
    (∀ i, ((fillMissing d s).rows.get? i).map List.length
        = (d.rows.get? i).map List.length) := by
  refine ⟨rfl, by simp [fillMissing], fun i => ?_, fun i => ?_⟩
  · simp only [fillMissing, List.get?_map]
  · simp only [fillMissing, List.get?_map]
    cases d.rows.get? i with
    | none => rfl
    | some r => simp

/-- Claim C1: `process_csv` is a total function into the discriminated
`ProcessingOutcome`: a run whose load step succeeds ends in `success`
carrying the cleaned dataset, the elapsed duration and the missing count,
and a run whose load step raises ends in `failure` carrying the logged
error description; no other kind of result exists. -/
theorem process_csv_outcome (path : String) (loadRes : Except String (Dataset String))
    (elapsed : Nat) :
    (process_csv path loadRes elapsed).2 =
      match loadRes with
      | Except.ok d =>
          ProcessingOutcome.success (fillMissing d "UNKNOWN") elapsed (countMissing d)
      | Except.error e =>
          ProcessingOutcome.failure ("Failed to process file '" ++ path ++ "': " ++ e) := by
  cases loadRes <;> rfl

/-- Claim C2: when the load step raises (for a missing file or any other
fault, represented by an arbitrary error description `e`), `process_csv`
emits exactly one ERROR-level event, that event carries the source path
and the fault's description, and the run returns a `failure` outcome;
being a total Lean function, it cannot propagate any fault. -/
theorem process_csv_failure_containment (path e : String) (elapsed : Nat) :
    ((process_csv path (Except.error e) elapsed).1.countP
        (fun ev => decide (ev.level = Level.error))) = 1 ∧
    (⟨Level.error, "Failed to process file '" ++ path ++ "': " ++ e⟩ : LogEvent)
      ∈ (process_csv path (Except.error e) elapsed).1 ∧
    (process_csv path (Except.error e) elapsed).2 =
      ProcessingOutcome.failure ("Failed to process file '" ++ path ++ "': " ++ e) := by
  refine ⟨?_, ?_, rfl⟩
  · simp [process_csv, List.countP_cons]
  · simp [process_csv]

/-- Claim C5: the warning step emits exactly one WARNING event naming the
source and the count when the count is positive, and nothing when it is
zero; it never emits more than one line. -/
theorem reportIfMissing_spec (count : Nat) (path : String) :
    (reportIfMissing count path).length ≤ 1 ∧
    (count > 0 → reportIfMissing count path =
      [⟨Level.warning,
        "File '" ++ path ++ "' contains " ++ toString count ++ " missing values"⟩]) ∧
    (count = 0 → reportIfMissing count path = []) := by
  unfold reportIfMissing
  refine ⟨?_, fun h => by simp [h], fun h => by simp [h]⟩
  split <;> simp

/-- Witness for C5: at count 3 one WARNING is emitted, at count 0 none. -/
theorem reportIfMissing_spec_witness :
    (0 : Nat) < 3 ∧
    reportIfMissing 3 "data.csv" =
      [⟨Level.warning,
        "File '" ++ "data.csv" ++ "' contains " ++ toString (3 : Nat) ++ " missing values"⟩] ∧
    reportIfMissing 0 "data.csv" = [] :=
  ⟨by decide,
   (reportIfMissing_spec 3 "data.csv").2.1 (by decide),
   (reportIfMissing_spec 0 "data.csv").2.2 rfl⟩

/-- Claim C10: the sentinel substituted for absent cells is the fixed
literal `"UNKNOWN"` — `process_csv` takes no replacement-value parameter,
its successful outcome always carries `fillMissing d "UNKNOWN"`, and
every absent cell of the input shows up as `"UNKNOWN"` in the output. -/
theorem process_csv_sentinel (path : String) (d : Dataset String) (elapsed : Nat) :
    (process_csv path (Except.ok d) elapsed).2 =
      ProcessingOutcome.success (fillMissing d "UNKNOWN") elapsed (countMissing d) ∧
    (∀ i j, cellAt d i j = some none →
      cellAt (fillMissing d "UNKNOWN") i j = some (some "UNKNOWN")) := by
  refine ⟨rfl, fun i j h => ?_⟩
  rw [cellAt_fillMissing, h]; rfl

/-- Witness for C10: the single absent cell of a concrete run is replaced
by the literal sentinel. -/
theorem process_csv_sentinel_witness :
    cellAt (⟨["Department"], [[none]]⟩ : Dataset String) 0 0 = some none ∧
    cellAt (fillMissing (⟨["Department"], [[none]]⟩ : Dataset String) "UNKNOWN") 0 0
      = some (some "UNKNOWN") :=
  ⟨rfl, (process_csv_sentinel "data.csv" ⟨["Department"], [[none]]⟩ 0).2 0 0 rfl⟩

/-- Counterexample for C6: on a concrete failed run (a missing file), the
emitted log is the initial INFO "Starting processing" event followed by
the ERROR event — so a failed run does emit a log event other than the
single ERROR line, refuting the claim as stated. -/
theorem process_csv_failed_run_extra_info :
    (process_csv "data.csv" (Except.error "No such file or directory") 0).1 =
      [⟨Level.info, "Starting processing for file: " ++ "data.csv"⟩,
       ⟨Level.error,
        "Failed to process file '" ++ "data.csv" ++ "': " ++ "No such file or directory"⟩] ∧
    ¬ (∀ ev ∈ (process_csv "data.csv" (Except.error "No such file or directory") 0).1,
        ev.level = Level.error) := by
  refine ⟨rfl, fun h => ?_⟩
  have hinfo := h ⟨Level.info, "Starting processing for file: " ++ "data.csv"⟩
    (by simp [process_csv])
  exact absurd hinfo (by simp)

/-- Claim C6 (amended): every run yields either a successful outcome with
the cleaned dataset and a log sequence containing no ERROR event, or a
failure outcome; a failed run emits exactly two log events — the initial
INFO start event followed by a single ERROR event — and nothing else; no
other output channel exists. -/
theorem process_csv_run_output (path : String) (elapsed : Nat) :
    (∀ e, (process_csv path (Except.error e) elapsed).1 =
        [⟨Level.info, "Starting processing for file: " ++ path⟩,
         ⟨Level.error, "Failed to process file '" ++ path ++ "': " ++ e⟩] ∧
      (process_csv path (Except.error e) elapsed).2 =
        ProcessingOutcome.failure ("Failed to process file '" ++ path ++ "': " ++ e)) ∧
    (∀ d, (process_csv path (Except.ok d) elapsed).2 =
        ProcessingOutcome.success (fillMissing d "UNKNOWN") elapsed (countMissing d) ∧
      ((process_csv path (Except.ok d) elapsed).1.countP
          (fun ev => decide (ev.level = Level.error))) = 0) := by
  refine ⟨fun e => ⟨rfl, rfl⟩, fun d => ⟨rfl, ?_⟩⟩
  by_cases h : countMissing d > 0 <;>
    simp [process_csv, reportIfMissing, h, List.countP_cons, List.countP_append]

/-- Claim C7: whenever the parsed file has a data row whose field count
differs from the header's, `load` fails with `MalformedSourceError`. -/
theorem load_malformed (text : String) (header : List String)
    (dataRows : List (List String))
    (hparse : (splitOnChar '\n' text.data).map
        (fun line => (splitOnChar ',' line).map String.mk) = header :: dataRows)
    (hbad : ∃ r ∈ dataRows, r.length ≠ header.length) :
    load (some text) = Except.error LoadError.malformedSource := by
  obtain ⟨r, hr, hlen⟩ := hbad
  have hall : dataRows.all (fun r => r.length == header.length) = false := by
    cases hcase : dataRows.all (fun r => r.length == header.length) with
    | false => rfl
    | true =>
      rw [List.all_eq_true] at hcase
      have := hcase r hr
      simp at this
      exact absurd this hlen
  have hload : load (some text) =
      match (splitOnChar '\n' text.data).map
          (fun line => (splitOnChar ',' line).map String.mk) with
      | [] => Except.error LoadError.malformedSource
      | header :: dataRows =>
        if dataRows.all (fun r => r.length == header.length) then
          Except.ok ⟨header,
            dataRows.map (fun r => r.map (fun f => if f = "" then none else some f))⟩
        else
          Except.error LoadError.malformedSource := rfl
  rw [hload, hparse]
  simp [hall]

/-- Witness for C7: the file "A,B\n1" has a two-column header and a
one-field data row, and loading it fails with `MalformedSourceError`. -/
theorem load_malformed_witness :
    (splitOnChar '\n' "A,B\n1".data).map
        (fun line => (splitOnChar ',' line).map String.mk) = ["A", "B"] :: [["1"]] ∧
    (∃ r ∈ [["1"]], r.length ≠ (["A", "B"] : List String).length) ∧
    load (some "A,B\n1") = Except.error LoadError.malformedSource :=
  ⟨rfl, by decide,
   load_malformed "A,B\n1" ["A", "B"] [["1"]] rfl (by decide)⟩
